import Mathlib

/-!
Verification development for the DALI voice-assistant backend.

The definitions below are shallow embeddings of the Python sources:
  - backend/language_handler.py   (detect_language)
  - backend/websocket_server.py   (get_rasa_reply, handle_client text branch)
  - backend/rasa_handler.py       (get_rasa_reply with retries)
  - backend/wakeup_word_handler.py (WakeWordDetector)
External collaborators (the langdetect library, the Rasa HTTP service, the
Porcupine spotter, PyAudio) are modelled as oracles/outcome parameters at
their interface boundary.
-/

/-- Python whitespace test for the ASCII whitespace characters that occur in
this program's texts (str.strip / str.isspace semantics on ASCII). -/
def pyIsSpace (c : Char) : Bool :=
  c == ' ' || c == '\t' || c == '\n' || c == '\r' || c == '\x0b' || c == '\x0c'

/-- Python str.strip(): removes leading and trailing whitespace only. -/
def pyStrip (s : String) : String :=
  String.mk (((s.data.dropWhile pyIsSpace).reverse.dropWhile pyIsSpace).reverse)

/-- ASCII lower-casing of one character (Python str.lower on the ASCII
letters, which are the only cased characters in this program's data). -/
def asciiLowerChar (c : Char) : Char :=
  if 'A' ≤ c && c ≤ 'Z' then Char.ofNat (c.toNat + 32) else c

/-- Python str.lower restricted to ASCII case mapping. -/
def pyLower (s : String) : String :=
  String.mk (s.data.map asciiLowerChar)

/-- Whether the first list is a prefix of the second. -/
def leadsWith : List Char → List Char → Bool
  | [], _ => true
  | _ :: _, [] => false
  | a :: as, b :: bs => a == b && leadsWith as bs

/-- Whether `needle` occurs as a contiguous substring of `hay`
(Python's `needle in hay` on strings). -/
def hasSub (needle : List Char) : List Char → Bool
  | [] => needle.isEmpty
  | h :: t => leadsWith needle (h :: t) || hasSub needle t

/-- The Devanagari Unicode block U+0900 to U+097F
(language_handler.py line 64). -/
def isDevanagari (c : Char) : Bool :=
  0x900 ≤ c.toNat && c.toNat ≤ 0x97F

/-- Python str.isalpha for the character ranges this program processes:
ASCII, and the Devanagari block where the letters (general categories Lo
and Lm: U+0904..U+0939, U+093D, U+0950, U+0958..U+0961, U+0971..U+097F)
are alphabetic while combining marks (Mn/Mc), digits (Nd) and punctuation
(Po) are not.  Code points outside these ranges do not occur in the texts
this development reasons about and are modelled as non-alphabetic. -/
def pyIsAlpha (c : Char) : Bool :=
  let n := c.toNat
  if n < 0x80 then c.isAlpha
  else if 0x900 ≤ n && n ≤ 0x97F then
    (0x904 ≤ n && n ≤ 0x939) || n == 0x93D || n == 0x950 ||
    (0x958 ≤ n && n ≤ 0x961) || (0x971 ≤ n && n ≤ 0x97F)
  else false

/-- `total_alpha` of language_handler.detect_language: the number of
alphabetic characters of the text. -/
def countAlpha (text : String) : Nat :=
  (text.data.filter pyIsAlpha).length

/-- `hindi_chars` of language_handler.detect_language: the number of
alphabetic characters lying in the Devanagari block. -/
def countDevAlpha (text : String) : Nat :=
  (text.data.filter (fun c => pyIsAlpha c && isDevanagari c)).length

/-- Number of non-whitespace characters of a text (the quantity the spec's
"fewer than 3 non-whitespace characters" phrasing refers to). -/
def nonWsCount (s : String) : Nat :=
  (s.data.filter (fun c => !(pyIsSpace c))).length

/-- The fixed Hindi keyword list of language_handler.py lines 90-91. -/
def hindi_keywords : List String :=
  ["namaste", "dhanyavaad", "kaise", "kya", "hai", "hain",
   "aap", "tum", "main", "hum", "kahan", "kab"]

/-- Method 3 of detect_language: some listed keyword occurs as a substring
of the lower-cased text. -/
def containsHindiKeyword (text : String) : Bool :=
  hindi_keywords.any (fun k => hasSub k.data (pyLower text).data)

/-- Outcome of the external langdetect call on the given text:
`none` models "langdetect not installed" or "detect raised an exception";
`some s` models "detect returned the language code s". -/
abbrev LdOutcome := Option String

/-- Method 2 of detect_language: the mapping of the langdetect outcome to a
supported language, `none` when there is no usable signal (unavailable,
exception, or an unsupported code). -/
def langdetectVerdict (ld : LdOutcome) : Option String :=
  match ld with
  | none => none
  | some s =>
    if s = "hi" then some "hindi"
    else if s = "en" ∨ s = "en-us" ∨ s = "en-gb" then some "english"
    else none

/-- language_handler.detect_language.  The script-ratio test
`hindi_chars / total_alpha > 0.2` of the source (float arithmetic) is
embedded exactly as the rational comparison `total_alpha < 5 * hindi_chars`;
the two agree for every text of realistic length since the gap between a
ratio of alphabetic-character counts and 1/5 is far larger than the float
rounding error. -/
def detect_language (text current_lang : String) (ld : LdOutcome) : String :=
  if text = "" ∨ (pyStrip text).length < 3 then current_lang
  else if 0 < countAlpha text ∧ countAlpha text < 5 * countDevAlpha text then "hindi"
  else
    match langdetectVerdict ld with
    | some lang => lang
    | none => if containsHindiKeyword text then "hindi" else current_lang

/-- Outcome of one HTTP POST to the Rasa dialogue service:
`ok texts` is a 2xx answer whose JSON array has, for each element, the
value of its "text" field (`none` when the field is absent);
the other constructors are the failure classes the code distinguishes. -/
inductive RasaOutcome where
  | ok (texts : List (Option String))
  | httpError
  | timeout
  | connError
  | otherError
  deriving DecidableEq

namespace websocket_server

/-- The default `timeout=5` (seconds) of websocket_server.get_rasa_reply. -/
def rasa_timeout : Nat := 5

/-- websocket_server.get_rasa_reply: a single POST to the Rasa service;
on a 2xx answer with at least one "text" field, the joined texts; otherwise
one of the fixed fallback strings, which one depending on the failure
class. -/
def get_rasa_reply (r : RasaOutcome) : String :=
  match r with
  | .ok texts =>
    let replies := texts.filterMap id
    if replies ≠ [] then String.intercalate " " replies
    else "I\x27m not sure how to respond to that."
  | .httpError => "I\x27m not sure how to respond to that."
  | .timeout => "Sorry, I\x27m taking too long to respond."
  | .connError => "Sorry, I couldn\x27t reach the assistant. Please check if Rasa is running."
  | .otherError => "An error occurred while processing your request."

/-- websocket_server.get_rasa_reply as a function of the whole sequence of
attempt outcomes the environment would provide: the code performs exactly
one `requests.post`, so only attempt 0 is consulted. -/
def get_rasa_reply_oracle (oracle : Nat → RasaOutcome) : String :=
  get_rasa_reply (oracle 0)

end websocket_server

namespace rasa_handler

/-- The default `retries=2` of rasa_handler.get_rasa_reply. -/
def retries_default : Nat := 2

/-- The single fixed fallback returned by rasa_handler.get_rasa_reply once
its retries are exhausted. -/
def exhausted_fallback : String :=
  "Sorry, I couldn\x27t reach the assistant right now. Please check if Rasa is running."

/-- The loop body of rasa_handler.get_rasa_reply: `attempt` is the index of
the next attempt, `fuel` the number of attempts still allowed. -/
def get_rasa_reply_aux (oracle : Nat → RasaOutcome) : Nat → Nat → String
  | _, 0 => exhausted_fallback
  | attempt, fuel + 1 =>
    match oracle attempt with
    | .ok texts =>
      if texts ≠ [] ∧ texts.filterMap id ≠ [] then
        String.intercalate " " (texts.filterMap id)
      else "I\x27m not sure how to respond to that."
    | _ => get_rasa_reply_aux oracle (attempt + 1) fuel

/-- rasa_handler.get_rasa_reply: up to `retries` attempts; a non-2xx
status, a timeout, a connection error or any other exception moves on to
the next attempt; after the last failed attempt the single fixed fallback
is returned.  Used by main.py, not by the websocket gateway. -/
def get_rasa_reply (oracle : Nat → RasaOutcome) (retries : Nat) : String :=
  get_rasa_reply_aux oracle 0 retries

end rasa_handler

/-- A database write issued by the gateway while handling a text message
(database_handler.ConversationDB).  `addConversation` is the INSERT INTO
conversations; `logLanguageSwitch` the INSERT INTO language_switches.
Timestamps are filled in by the database and are not modelled. -/
inductive DBOp where
  | addConversation (session_id user_input bot_response language : String)
      (confidence_score : ℚ)
  | logLanguageSwitch (session_id from_language to_language : String)
  deriving DecidableEq

/-- A frame sent back to the originating client on the text path. -/
inductive OutMsg where
  | response (message language : String) (speak : Bool)
  deriving DecidableEq

/-- The per-client session record kept in the gateway's `clients` map
(the fields the text path reads or writes). -/
structure ClientSession where
  language : String
  tts_enabled : Bool
  deriving DecidableEq

/-- Result of handling one `type == "text"` frame: the updated session
record, the database writes in the order they were issued, and the frames
sent to the client. -/
structure TextMsgResult where
  sess : ClientSession
  dbOps : List DBOp
  sent : List OutMsg
  deriving DecidableEq

/-- The `msg_type == "text"` branch of websocket_server.handle_client:
strip the payload; if empty, do nothing (`continue`); else detect the
language (updating the session and logging a switch on change), obtain the
Rasa reply via a single attempt, persist the conversation entry, and send
the response frame.  `ld` is the langdetect oracle and `r` the Rasa
outcome for this request. -/
def onTextMessage (sess : ClientSession) (session_id payload : String)
    (ld : LdOutcome) (r : RasaOutcome) : TextMsgResult :=
  let user_message := pyStrip payload
  if user_message = "" then ⟨sess, [], []⟩
  else
    let current_lang := sess.language
    let detected_lang := detect_language user_message current_lang ld
    let switchOps :=
      if detected_lang ≠ current_lang then
        [DBOp.logLanguageSwitch session_id current_lang detected_lang]
      else []
    let sess' :=
      if detected_lang ≠ current_lang then { sess with language := detected_lang }
      else sess
    let bot_reply := websocket_server.get_rasa_reply r
    ⟨sess',
     switchOps ++ [DBOp.addConversation session_id user_message bot_reply detected_lang 1],
     [OutMsg.response bot_reply detected_lang sess.tts_enabled]⟩

/-- Recognizer for the conversations INSERT. -/
def isConv : DBOp → Bool
  | .addConversation _ _ _ _ _ => true
  | _ => false

/-- Recognizer for the language_switches INSERT. -/
def isSwitch : DBOp → Bool
  | .logLanguageSwitch _ _ _ => true
  | _ => false

/-- An observable call the WakeWordDetector makes on its collaborators:
the threading.Timer, the PyAudio stream/instance, the Porcupine handle,
and the async notifyVoiceMode callback. -/
inductive Effect where
  | timerCancel
  | timerStart
  | streamStop
  | streamClose
  | paTerminate
  | porcupineDelete
  | notifyVoiceMode (enabled : Bool)
  deriving DecidableEq

/-- The state of a WakeWordDetector (wakeup_word_handler.WakeWordDetector).
`pending` counts the threading.Timer objects that are armed and neither
cancelled nor fired; `currentPending` says whether the timer currently held
in `self._timer` is among them; `timerSet` whether `self._timer` is not
None.  The resource flags record that `self.stream`, `self.pa` and
`self.porcupine` are set (they are assigned in __init__ and never cleared,
so they stay true). -/
structure DetectorState where
  listening : Bool
  pending : Nat
  currentPending : Bool
  timerSet : Bool
  hasStream : Bool
  hasPa : Bool
  hasPorcupine : Bool
  deriving DecidableEq

/-- WakeWordDetector._reset_timer: `if self._timer: self._timer.cancel()`,
then construct and start a fresh timer.  The cancel precedes the start. -/
def resetTimer (s : DetectorState) : DetectorState × List Effect :=
  ({ s with
      pending := (if s.currentPending then s.pending - 1 else s.pending) + 1,
      currentPending := true,
      timerSet := true },
   (if s.timerSet then [Effect.timerCancel] else []) ++ [Effect.timerStart])

/-- WakeWordDetector._timeout, fired by the expiry of the timer held in
`self._timer`; only an armed, uncancelled timer can fire. -/
def fireTimeout (s : DetectorState) : DetectorState × List Effect :=
  if s.currentPending then
    ({ s with pending := s.pending - 1, currentPending := false },
     [Effect.notifyVoiceMode false])
  else (s, [])

/-- WakeWordDetector._safe_process: the Porcupine call wrapped so that an
exception (modelled as `Except.error`) yields -1. -/
def safeProcess (spot : Except String Int) : Int :=
  match spot with
  | .ok r => r
  | .error _ => -1

/-- One iteration of WakeWordDetector._detect_loop after the frame read:
run `_safe_process`; when the result is ≥ 0, reset the inactivity timer
and notify voice mode on. -/
def detectIteration (s : DetectorState) (spot : Except String Int) :
    DetectorState × List Effect :=
  if 0 ≤ safeProcess spot then
    let r := resetTimer s
    (r.1, r.2 ++ [Effect.notifyVoiceMode true])
  else (s, [])

/-- WakeWordDetector.stop: clear `_listening`, cancel the timer if
`self._timer` is set, then stop and close the stream, terminate PyAudio
and delete the Porcupine handle.  None of the attributes is cleared. -/
def stopDetector (s : DetectorState) : DetectorState × List Effect :=
  let s1 :=
    if s.timerSet then
      { s with listening := false,
               pending := if s.currentPending then s.pending - 1 else s.pending,
               currentPending := false }
    else { s with listening := false }
  (s1,
   (if s.timerSet then [Effect.timerCancel] else [])
   ++ (if s.hasStream then [Effect.streamStop, Effect.streamClose] else [])
   ++ (if s.hasPa then [Effect.paTerminate] else [])
   ++ (if s.hasPorcupine then [Effect.porcupineDelete] else []))

/-- An event acting on the detector: a frame processed by the detection
loop, the expiry of the inactivity timer, or a stop() call. -/
inductive DetectorOp where
  | detect (spot : Except String Int)
  | fire
  | stop

/-- State transition of one detector event. -/
def detectorStep (s : DetectorState) (op : DetectorOp) : DetectorState :=
  match op with
  | .detect spot => (detectIteration s spot).1
  | .fire => (fireTimeout s).1
  | .stop => (stopDetector s).1

/-- Run a sequence of detector events. -/
def runDetector (s : DetectorState) (ops : List DetectorOp) : DetectorState :=
  ops.foldl detectorStep s

/-- The detector right after __init__ and start(): no timer yet. -/
def initialDetector : DetectorState :=
  { listening := true, pending := 0, currentPending := false, timerSet := false,
    hasStream := true, hasPa := true, hasPorcupine := true }

/-- The detector once _detect_loop has armed the first timer. -/
def startedDetector : DetectorState := (resetTimer initialDetector).1

/-- Inductive invariant: the only armed timer, if any, is the one in
`self._timer`. -/
def timerInvariant (s : DetectorState) : Prop :=
  s.pending = (if s.currentPending then 1 else 0)

/-! ## Theorems -/

/-- C2 (counterexample): the text "ह र" has only 2 non-whitespace
characters, yet detect_language does not keep the current language: the
code's gate is `len(text.strip()) < 3`, which counts the interior space,
so the text passes the gate and the Devanagari script test returns
"hindi". -/
theorem C2_counterexample :
    nonWsCount "ह र" < 3 ∧
    detect_language "ह र" "english" none = "hindi" ∧
    ("hindi" : String) ≠ "english" := by decide

/-- C2 (amended): for every text that is empty or whose stripped form has
length < 3 (the code's actual gate, which counts interior whitespace),
detect_language returns the current language unchanged, for every current
language and every langdetect outcome. -/
theorem C2_amended_strip_gate (text current_lang : String) (ld : LdOutcome)
    (h : text = "" ∨ (pyStrip text).length < 3) :
    detect_language text current_lang ld = current_lang := by
  unfold detect_language
  rw [if_pos h]

/-- Witness for C2_amended_strip_gate at the text "hi". -/
theorem C2_amended_witness :
    (("hi" : String) = "" ∨ (pyStrip "hi").length < 3) ∧
    detect_language "hi" "english" none = "english" :=
  ⟨Or.inr (by decide),
   C2_amended_strip_gate "hi" "english" none (Or.inr (by decide))⟩

/-- C3: for every text passing the length gate whose alphabetic characters
are more than 20% Devanagari (exact form of the code's ratio test:
total_alpha < 5 * hindi_chars with total_alpha > 0), detect_language
returns "hindi" for every current language and every langdetect
outcome. -/
theorem C3_script_forces_hindi (text current_lang : String) (ld : LdOutcome)
    (hgate : ¬(text = "" ∨ (pyStrip text).length < 3))
    (hscript : 0 < countAlpha text ∧ countAlpha text < 5 * countDevAlpha text) :
    detect_language text current_lang ld = "hindi" := by
  unfold detect_language
  rw [if_neg hgate, if_pos hscript]

/-- Witness for C3_script_forces_hindi at "नमस्ते" with current language
"english" and a langdetect outcome claiming English. -/
theorem C3_witness :
    (¬(("नमस्ते" : String) = "" ∨ (pyStrip "नमस्ते").length < 3)) ∧
    (0 < countAlpha "नमस्ते" ∧ countAlpha "नमस्ते" < 5 * countDevAlpha "नमस्ते") ∧
    detect_language "नमस्ते" "english" (some "en") = "hindi" :=
  ⟨by decide, by decide,
   C3_script_forces_hindi "नमस्ते" "english" (some "en") (by decide) (by decide)⟩

/-- C5: with no script signal and no usable langdetect signal, a text
containing a listed Hindi keyword is detected as "hindi"; in particular
"namaste, kaise ho" with current language "english" and langdetect
unavailable gives "hindi". -/
theorem C5_keyword_fallback (text current_lang : String) (ld : LdOutcome)
    (hgate : ¬(text = "" ∨ (pyStrip text).length < 3))
    (hscript : ¬(0 < countAlpha text ∧ countAlpha text < 5 * countDevAlpha text))
    (hld : langdetectVerdict ld = none)
    (hkw : containsHindiKeyword text = true) :
    detect_language text current_lang ld = "hindi" ∧
    detect_language "namaste, kaise ho" "english" none = "hindi" := by
  constructor
  · unfold detect_language
    rw [if_neg hgate, if_neg hscript, hld, hkw]
    simp
  · decide

/-- Witness for C5_keyword_fallback at its own concrete scenario. -/
theorem C5_witness :
    (¬(("namaste, kaise ho" : String) = "" ∨ (pyStrip "namaste, kaise ho").length < 3)) ∧
    (¬(0 < countAlpha "namaste, kaise ho" ∧
        countAlpha "namaste, kaise ho" < 5 * countDevAlpha "namaste, kaise ho")) ∧
    langdetectVerdict none = none ∧
    containsHindiKeyword "namaste, kaise ho" = true ∧
    detect_language "namaste, kaise ho" "english" none = "hindi" :=
  ⟨by decide, by decide, rfl, by decide,
   (C5_keyword_fallback "namaste, kaise ho" "english" none
      (by decide) (by decide) rfl (by decide)).1⟩

/-- C9: the keyword fallback matches case-insensitive substrings, not
whole words: whenever langdetect yields no usable signal, "chair"
(containing "hai") and "Mainly" (containing "main") are both classified
as "hindi", for every current language. -/
theorem C9_substring_matching (current_lang : String) (ld : LdOutcome)
    (hld : langdetectVerdict ld = none) :
    detect_language "chair" current_lang ld = "hindi" ∧
    detect_language "Mainly" current_lang ld = "hindi" := by
  constructor <;>
    (unfold detect_language
     rw [if_neg (by decide), if_neg (by decide), hld]
     simp only [if_pos, if_true]
     rw [if_pos (by decide)])

/-- Witness for C9_substring_matching with current language "english" and
langdetect unavailable. -/
theorem C9_witness :
    langdetectVerdict none = none ∧
    detect_language "chair" "english" none = "hindi" ∧
    detect_language "Mainly" "english" none = "hindi" :=
  ⟨rfl, (C9_substring_matching "english" none rfl).1,
        (C9_substring_matching "english" none rfl).2⟩

/-- C6: an empty or whitespace-only text payload is a no-op: the session
record (language and TTS flag) is unchanged, no database write is issued,
no frame is sent, and the handler returns normally so the connection
continues. -/
theorem C6_empty_payload_noop (sess : ClientSession) (session_id payload : String)
    (ld : LdOutcome) (r : RasaOutcome) (h : pyStrip payload = "") :
    onTextMessage sess session_id payload ld r = ⟨sess, [], []⟩ := by
  unfold onTextMessage
  simp only [h, if_pos]

/-- Witness for C6_empty_payload_noop at a whitespace-only payload. -/
theorem C6_witness :
    pyStrip "   " = "" ∧
    onTextMessage ⟨"english", true⟩ "s" "   " none RasaOutcome.connError =
      ⟨⟨"english", true⟩, [], []⟩ :=
  ⟨by decide,
   C6_empty_payload_noop ⟨"english", true⟩ "s" "   " none RasaOutcome.connError (by decide)⟩

/-- C10: when the keyword spotter raises, _safe_process returns -1, so the
detection-loop iteration neither changes the detector state (no timer
reset) nor emits any notification: a spotting error can never enable voice
mode. -/
theorem C10_spotter_error_safe :
    ∀ (s : DetectorState) (e : String),
      safeProcess (Except.error e) = -1 ∧
      detectIteration s (Except.error e) = (s, []) := by
  intro s e
  refine ⟨rfl, ?_⟩
  simp [detectIteration, safeProcess]

/-- C7 (counterexample): a second stop() on an already stopped detector is
not free of additional effect: because stop() never clears self._timer,
self.stream, self.pa or self.porcupine, it re-issues the timer cancel,
the stream stop/close, the PyAudio terminate and the Porcupine delete. -/
theorem C7_counterexample :
    (stopDetector (stopDetector startedDetector).1).2 =
      [Effect.timerCancel, Effect.streamStop, Effect.streamClose,
       Effect.paTerminate, Effect.porcupineDelete] ∧
    (stopDetector (stopDetector startedDetector).1).2 ≠ [] := by decide

/-- C7 (amended): a second stop() raises no error in the detector's own
logic and leaves its state exactly as the first left it, but it re-issues
exactly the same resource-release calls as the first call, since the
handles are never cleared. -/
theorem C7_amended_stop_state_idempotent :
    ∀ s : DetectorState,
      stopDetector (stopDetector s).1 = ((stopDetector s).1, (stopDetector s).2) := by
  intro s
  unfold stopDetector
  by_cases ht : s.timerSet <;> simp [ht]

/-- Invariant preservation: every detector event keeps the armed-timer
count equal to 1 exactly when the timer in self._timer is armed
(the reset path cancels the old timer before starting the new one). -/
theorem detectorStep_invariant (s : DetectorState) (op : DetectorOp)
    (h : timerInvariant s) : timerInvariant (detectorStep s op) := by
  unfold timerInvariant at h
  cases op with
  | detect spot =>
    show timerInvariant (detectIteration s spot).1
    unfold timerInvariant detectIteration resetTimer
    by_cases h0 : (0 : Int) ≤ safeProcess spot
    · rw [if_pos h0]
      cases hc : s.currentPending <;> simp [hc] at h ⊢ <;> omega
    · rw [if_neg h0]
      exact h
  | fire =>
    show timerInvariant (fireTimeout s).1
    unfold timerInvariant fireTimeout
    cases hc : s.currentPending <;> simp [hc] at h ⊢ <;> omega
  | stop =>
    show timerInvariant (stopDetector s).1
    unfold timerInvariant stopDetector
    cases ht : s.timerSet <;> cases hc : s.currentPending <;>
      simp [ht, hc] at h ⊢ <;> omega

/-- The invariant holds along every run from the started detector. -/
theorem runDetector_invariant (ops : List DetectorOp) (s : DetectorState)
    (h : timerInvariant s) : timerInvariant (runDetector s ops) := by
  induction ops generalizing s with
  | nil => exact h
  | cons op rest ih => exact ih (detectorStep s op) (detectorStep_invariant s op h)

/-- C8: along every sequence of detector events from the started detector
at most one inactivity timer is outstanding, and _reset_timer cancels the
previously scheduled timer before starting the replacement. -/
theorem C8_single_outstanding_timer :
    (∀ ops : List DetectorOp, (runDetector startedDetector ops).pending ≤ 1) ∧
    (resetTimer startedDetector).2 = [Effect.timerCancel, Effect.timerStart] := by
  constructor
  · intro ops
    have h0 : timerInvariant startedDetector := by
      unfold timerInvariant startedDetector initialDetector resetTimer; decide
    have h := runDetector_invariant ops startedDetector h0
    unfold timerInvariant at h
    split at h <;> omega
  · decide

/-- C1 (counterexample): on the accepted message "namaste" in an English
session, the text path persists exactly one conversation entry and one
language-switch event, but the switch event is written first
(handle_client logs the switch at line 114, before add_conversation at
line 120), contradicting the claimed ConversationEntry-first order. -/
theorem C1_counterexample :
    ((onTextMessage ⟨"english", true⟩ "s" "namaste" none RasaOutcome.connError).dbOps.countP
        isConv = 1) ∧
    ((onTextMessage ⟨"english", true⟩ "s" "namaste" none RasaOutcome.connError).dbOps.countP
        isSwitch = 1) ∧
    ¬((onTextMessage ⟨"english", true⟩ "s" "namaste" none RasaOutcome.connError).dbOps.findIdx
        isConv <
      (onTextMessage ⟨"english", true⟩ "s" "namaste" none RasaOutcome.connError).dbOps.findIdx
        isSwitch) := by
  decide

/-- C1 (amended): every accepted text message persists exactly one
conversation entry; when the detected language differs from the session's
language exactly one language-switch event is persisted, before the
conversation entry; when it does not differ, no switch event is
persisted. -/
theorem C1_amended_switch_then_entry (sess : ClientSession) (session_id payload : String)
    (ld : LdOutcome) (r : RasaOutcome) (h : pyStrip payload ≠ "") :
    ((onTextMessage sess session_id payload ld r).dbOps.countP isConv = 1) ∧
    (detect_language (pyStrip payload) sess.language ld ≠ sess.language →
      ((onTextMessage sess session_id payload ld r).dbOps.countP isSwitch = 1 ∧
       (onTextMessage sess session_id payload ld r).dbOps.findIdx isSwitch <
         (onTextMessage sess session_id payload ld r).dbOps.findIdx isConv)) ∧
    (detect_language (pyStrip payload) sess.language ld = sess.language →
      (onTextMessage sess session_id payload ld r).dbOps.countP isSwitch = 0) := by
  simp only [onTextMessage]
  rw [if_neg h]
  by_cases hd : detect_language (pyStrip payload) sess.language ld = sess.language
  · simp [hd, isConv, isSwitch]
  · simp [hd, isConv, isSwitch, List.findIdx_cons]

/-- Witness for C1_amended_switch_then_entry on the message "namaste" in
an English session (a language change). -/
theorem C1_amended_witness :
    pyStrip "namaste" ≠ "" ∧
    (((onTextMessage ⟨"english", true⟩ "s" "namaste" none RasaOutcome.connError).dbOps.countP
        isConv = 1) ∧
     (detect_language (pyStrip "namaste") "english" none ≠ "english" →
       ((onTextMessage ⟨"english", true⟩ "s" "namaste" none RasaOutcome.connError).dbOps.countP
          isSwitch = 1 ∧
        (onTextMessage ⟨"english", true⟩ "s" "namaste" none RasaOutcome.connError).dbOps.findIdx
          isSwitch <
        (onTextMessage ⟨"english", true⟩ "s" "namaste" none RasaOutcome.connError).dbOps.findIdx
          isConv)) ∧
     (detect_language (pyStrip "namaste") "english" none = "english" →
       (onTextMessage ⟨"english", true⟩ "s" "namaste" none RasaOutcome.connError).dbOps.countP
         isSwitch = 0)) :=
  ⟨by decide,
   C1_amended_switch_then_entry ⟨"english", true⟩ "s" "namaste" none
     RasaOutcome.connError (by decide)⟩

/-- C4 (counterexample): the gateway's own get_rasa_reply does not retry
and does not return one fixed fallback: its timeout and connection-error
fallbacks differ, and on a connection error whose second attempt would
have succeeded the gateway still persists the connection-error fallback
(the retrying variant, rasa_handler.get_rasa_reply, would have returned
"hello"). -/
theorem C4_counterexample :
    websocket_server.get_rasa_reply RasaOutcome.timeout ≠
      websocket_server.get_rasa_reply RasaOutcome.connError ∧
    rasa_handler.get_rasa_reply
      (fun n => if n = 0 then RasaOutcome.connError else RasaOutcome.ok [some "hello"])
      rasa_handler.retries_default = "hello" ∧
    (onTextMessage ⟨"english", true⟩ "s" "hello" none RasaOutcome.connError).dbOps =
      [DBOp.addConversation "s" "hello"
        "Sorry, I couldn\x27t reach the assistant. Please check if Rasa is running."
        "english" 1] := by
  refine ⟨by decide, by decide, by decide⟩

/-- C4 (amended): the gateway makes a single attempt (only attempt 0 of
the outcome sequence is consulted) with a 5-second timeout; the reply —
on failure one of four fixed apologetic fallback strings, depending on the
failure class — is persisted as the bot_response of the one conversation
entry.  The 2-attempt retry with a single fixed fallback belongs to
rasa_handler.get_rasa_reply, used by main.py, not by the gateway. -/
theorem C4_amended_single_attempt (sess : ClientSession) (session_id payload : String)
    (ld : LdOutcome) (oracle : Nat → RasaOutcome) (h : pyStrip payload ≠ "") :
    (∀ oracle2 : Nat → RasaOutcome, oracle2 0 = oracle 0 →
       websocket_server.get_rasa_reply_oracle oracle2 =
         websocket_server.get_rasa_reply_oracle oracle) ∧
    websocket_server.rasa_timeout = 5 ∧
    ((onTextMessage sess session_id payload ld (oracle 0)).dbOps.filter isConv =
      [DBOp.addConversation session_id (pyStrip payload)
        (websocket_server.get_rasa_reply (oracle 0))
        (detect_language (pyStrip payload) sess.language ld) 1]) ∧
    websocket_server.get_rasa_reply RasaOutcome.timeout =
      "Sorry, I\x27m taking too long to respond." ∧
    websocket_server.get_rasa_reply RasaOutcome.connError =
      "Sorry, I couldn\x27t reach the assistant. Please check if Rasa is running." ∧
    websocket_server.get_rasa_reply RasaOutcome.otherError =
      "An error occurred while processing your request." ∧
    websocket_server.get_rasa_reply RasaOutcome.httpError =
      "I\x27m not sure how to respond to that." := by
  refine ⟨?_, rfl, ?_, rfl, rfl, rfl, rfl⟩
  · intro o2 ho
    unfold websocket_server.get_rasa_reply_oracle
    rw [ho]
  · simp only [onTextMessage]
    rw [if_neg h]
    by_cases hd : detect_language (pyStrip payload) sess.language ld = sess.language <;>
      simp [hd, isConv]

/-- Witness for C4_amended_single_attempt on an accepted payload with a
connection-error outcome. -/
theorem C4_amended_witness :
    pyStrip "hello" ≠ "" ∧
    ((∀ oracle2 : Nat → RasaOutcome, oracle2 0 = RasaOutcome.connError →
        websocket_server.get_rasa_reply_oracle oracle2 =
          websocket_server.get_rasa_reply_oracle (fun _ => RasaOutcome.connError)) ∧
     websocket_server.rasa_timeout = 5 ∧
     ((onTextMessage ⟨"english", true⟩ "s" "hello" none RasaOutcome.connError).dbOps.filter
         isConv =
       [DBOp.addConversation "s" (pyStrip "hello")
         (websocket_server.get_rasa_reply RasaOutcome.connError)
         (detect_language (pyStrip "hello") "english" none) 1]) ∧
     websocket_server.get_rasa_reply RasaOutcome.timeout =
       "Sorry, I\x27m taking too long to respond." ∧
     websocket_server.get_rasa_reply RasaOutcome.connError =
       "Sorry, I couldn\x27t reach the assistant. Please check if Rasa is running." ∧
     websocket_server.get_rasa_reply RasaOutcome.otherError =
       "An error occurred while processing your request." ∧
     websocket_server.get_rasa_reply RasaOutcome.httpError =
       "I\x27m not sure how to respond to that.") :=
  ⟨by decide,
   C4_amended_single_attempt ⟨"english", true⟩ "s" "hello" none
     (fun _ => RasaOutcome.connError) (by decide)⟩
